/-
  Verification of the canvas/graph editor and its workflow-pattern dispatcher.

  The definitions below are a shallow embedding of the TypeScript source:
  * the Playground component (node/edge state, handleAddEdge, handleRemoveEdge,
    the edge-cleanup effect, checkWorkflowPattern, detectWorkflowPattern),
  * the static pattern catalog (workflowPatterns.ts),
  * the Workspace component (zoom/pan state, handleZoom / handleWheelEvent,
    handleDrop coordinate conversion, handleFieldMouseDown connection dragging,
    the snap search, and the node-delete click handler).

  JavaScript strings are modelled as Lean `String`; all strings appearing in the
  source are ASCII apart from the arrow character, so `toLowerCase`,
  `includes` and single-character `split` coincide with the Lean models below.
  Numeric view-state (scale, offsets, coordinates) is modelled over `ℚ`.
-/
import Mathlib

set_option maxHeartbeats 1000000

/-! ## JavaScript string primitives -/

/-- JS `String.prototype.toLowerCase` (ASCII data in this codebase). -/
def jsToLower (s : String) : String := String.mk (s.data.map Char.toLower)

/-- Boolean prefix test on character lists. -/
def charPrefix : List Char → List Char → Bool
  | [], _ => true
  | _ :: _, [] => false
  | a :: as, b :: bs => a == b && charPrefix as bs

/-- Boolean substring test on character lists. -/
def charInfix (needle : List Char) : List Char → Bool
  | [] => charPrefix needle []
  | b :: bs => charPrefix needle (b :: bs) || charInfix needle bs

/-- JS `haystack.includes(needle)`: substring containment. -/
def jsIncludes (haystack needle : String) : Bool :=
  charInfix needle.data haystack.data

/-- JS `String.prototype.split` with a single-character separator, on the
underlying character list.  `"".split(c)` is `[""]`, separators at the ends
produce empty fragments, exactly as in JS. -/
def splitChar (sep : Char) : List Char → List (List Char)
  | [] => [[]]
  | c :: cs =>
    if c = sep then [] :: splitChar sep cs
    else (splitChar sep cs).modifyHead (fun l => c :: l)

/-- JS `s.split(sep)` for a one-character separator string. -/
def jsSplit (sep : Char) (s : String) : List String :=
  (splitChar sep s.data).map String.mk

/-- The key/entry builder used all over `checkWorkflowPattern`:
JS template literals of the shape `a→b` (backtick interpolation in the source). -/
def connKey (a b : String) : String := a ++ "→" ++ b

/-- JS default `Array.prototype.sort` comparator on strings compares code
units; all catalog strings live in the BMP, where this is codepoint order. -/
def jsStrLeb : List Char → List Char → Bool
  | [], _ => true
  | _ :: _, [] => false
  | a :: as, b :: bs =>
    if a.val < b.val then true
    else if b.val < a.val then false
    else jsStrLeb as bs

def jsStrLe (a b : String) : Bool := jsStrLeb a.data b.data

/-- Insertion of one element into a sorted list, for the model of JS
`Array.prototype.sort()`.  Any comparator-consistent sort produces the same
array for a total antisymmetric order, so insertion sort is a faithful model
of the engine's sort for the equality test the matcher performs. -/
def jsInsert (x : String) : List String → List String
  | [] => [x]
  | y :: ys => if jsStrLe x y then x :: y :: ys else y :: jsInsert x ys

/-- Model of `[...array].sort()` on strings. -/
def jsSortStrings : List String → List String
  | [] => []
  | x :: xs => jsInsert x (jsSortStrings xs)

/-- Model of `[...new Set(list)]`: deduplication keeping first occurrences,
in insertion order, as a JS `Set` does. -/
def jsSetDedupGo (seen : List String) : List String → List String
  | [] => []
  | x :: xs => if x ∈ seen then jsSetDedupGo seen xs else x :: jsSetDedupGo (x :: seen) xs

def jsSetDedup (l : List String) : List String := jsSetDedupGo [] l

/-! ## Data model (types/nodeTypes.ts shapes as used by the source) -/

/-- A port of a node: entries of `data.inputs` / `data.outputs`. -/
structure Port where
  id : String
  name : String
  type : String
  fieldType : String
  value : Option String := none
deriving DecidableEq, Repr

/-- The `data` record of a node. -/
structure NData where
  label : String
  inputs : List Port
  outputs : List Port
deriving DecidableEq, Repr

/-- `NodeData`: a placed node instance. -/
structure NodeData where
  id : String
  type : String
  position : ℚ × ℚ
  data : NData
deriving DecidableEq

/-- `EdgeData`: a committed connection. -/
structure EdgeData where
  id : String
  source : String
  sourceHandle : String
  target : String
  targetHandle : String
deriving DecidableEq, Repr

/-- An entry of a pattern's `connections` array (workflowPatterns.ts). -/
structure ConnectionPattern where
  nodeConnection : String
  portConnection : String
deriving DecidableEq, Repr

/-- A static catalog entry (workflowPatterns.ts). -/
structure WorkflowPattern where
  id : String
  name : String
  requiredNodeTypes : List String
  connections : List ConnectionPattern
  endpoint : String
deriving DecidableEq, Repr

/-! ## The static pattern catalog (workflowPatterns.ts, in order) -/

def workflowPatterns : List WorkflowPattern := [
  { id := "email-marketing", name := "Email Marketing Workflow",
    requiredNodeTypes := ["File-Input-Tool", "CSV-Agent", "Text-Input-Tool",
      "Text-Agent", "Email-Tool", "End"],
    connections := [
      ⟨"File-Input-Tool→CSV-Agent", "File→File"⟩,
      ⟨"CSV-Agent→Text-Agent", "Personal Description→Tools"⟩,
      ⟨"CSV-Agent→Email-Tool", "Receiver Emails→Receiver Emails"⟩,
      ⟨"Text-Input-Tool→Text-Agent", "Text→Instructions"⟩,
      ⟨"Text-Agent→Email-Tool", "Output→Email Description"⟩,
      ⟨"Email-Tool→End", "Status→End"⟩],
    endpoint := "http://localhost:8000/workflow_agent" },
  { id := "marketing-cold-caller", name := "Marketing Cold Caller Workflow",
    requiredNodeTypes := ["File-Input-Tool", "CSV-Agent", "Voice-Agent",
      "WhatsApp-Tool", "End"],
    connections := [
      ⟨"File-Input-Tool→CSV-Agent", "File→File"⟩,
      ⟨"WhatsApp-Tool→Voice-Agent", "Output→Tools"⟩,
      ⟨"CSV-Agent→Voice-Agent", "Personal Description→Instructions"⟩,
      ⟨"Voice-Agent→End", "Output→End"⟩],
    endpoint := "http://localhost:8000/voice_agent" },
  { id := "csv-agent", name := "CSV Agent Workflow",
    requiredNodeTypes := ["CSV-Agent", "File-Input-Tool", "Text-Input-Tool", "End"],
    connections := [
      ⟨"File-Input-Tool→CSV-Agent", "File→File"⟩,
      ⟨"Text-Input-Tool→CSV-Agent", "Text→Query"⟩,
      ⟨"CSV-Agent→End", "Output→End"⟩],
    endpoint := "http://localhost:8000/csv_agent" },
  { id := "web-search", name := "Web Search Workflow",
    requiredNodeTypes := ["Web-Search-Tool", "Text-Agent", "Text-Input-Tool", "End"],
    connections := [
      ⟨"Text-Input-Tool→Text-Agent", "Text→Query"⟩,
      ⟨"Web-Search-Tool→Text-Agent", "Tool→Tools"⟩,
      ⟨"Text-Agent→End", "Output→End"⟩],
    endpoint := "http://localhost:8000/web_agent" },
  { id := "rag", name := "RAG Workflow",
    requiredNodeTypes := ["Text-Agent", "Text-Input-Tool", "Knowledge-Base", "End"],
    connections := [
      ⟨"Text-Input-Tool→Text-Agent", "Text→Query"⟩,
      ⟨"Knowledge-Base→Text-Agent", "Content→Tools"⟩,
      ⟨"Text-Agent→End", "Output→End"⟩],
    endpoint := "http://localhost:8000/rag_agent" },
  { id := "text-agent", name := "Text Agent Workflow",
    requiredNodeTypes := ["Text-Agent", "Text-Input-Tool", "End"],
    connections := [
      ⟨"Text-Input-Tool→Text-Agent", "Text→Query"⟩,
      ⟨"Text-Agent→End", "Output→End"⟩],
    endpoint := "http://localhost:8000/text_agent" },
  { id := "zoom-tool", name := "Zoom Agent",
    requiredNodeTypes := ["Zoom-Tool", "End"],
    connections := [⟨"Zoom-Tool→End", "Output→End"⟩],
    endpoint := "http://localhost:8000/zoom_agent" },
  { id := "arxiv-search", name := "ArXiv Search",
    requiredNodeTypes := ["ArXiv-Search", "End"],
    connections := [⟨"ArXiv-Search→End", "Papers→End"⟩],
    endpoint := "http://localhost:8000/component/arxiv" },
  { id := "hackernews-search", name := "HackerNews Search",
    requiredNodeTypes := ["HackerNews-Search", "End"],
    connections := [⟨"HackerNews-Search→End", "Stories→End"⟩],
    endpoint := "http://localhost:8000/component/hackernews" },
  { id := "pandas-data", name := "Pandas Data Analysis",
    requiredNodeTypes := ["Pandas-Data", "End"],
    connections := [⟨"Pandas-Data→End", "Analysis→End"⟩],
    endpoint := "http://localhost:8000/component/pandas" },
  { id := "duckdb-sql", name := "DuckDB SQL Analysis",
    requiredNodeTypes := ["DuckDB-SQL", "End"],
    connections := [⟨"DuckDB-SQL→End", "SQL Results→End"⟩],
    endpoint := "http://localhost:8000/component/duckdb" },
  { id := "calculator", name := "Calculator",
    requiredNodeTypes := ["Calculator", "End"],
    connections := [⟨"Calculator→End", "Result→End"⟩],
    endpoint := "http://localhost:8000/component/calculator" },
  { id := "text-processor", name := "Text Processor",
    requiredNodeTypes := ["Text-Processor", "End"],
    connections := [⟨"Text-Processor→End", "Processed Text→End"⟩],
    endpoint := "http://localhost:8000/component/textprocessor" },
  { id := "json-processor", name := "JSON Processor",
    requiredNodeTypes := ["JSON-Processor", "End"],
    connections := [⟨"JSON-Processor→End", "Processed JSON→End"⟩],
    endpoint := "http://localhost:8000/component/json" },
  { id := "python-code", name := "Python Code Execution",
    requiredNodeTypes := ["Python-Code", "End"],
    connections := [⟨"Python-Code→End", "Execution Result→End"⟩],
    endpoint := "http://localhost:8000/component/python" },
  { id := "file-operations", name := "File Operations",
    requiredNodeTypes := ["File-Operations", "End"],
    connections := [⟨"File-Operations→End", "Result→End"⟩],
    endpoint := "http://localhost:8000/component/file" },
  { id := "web-scraping", name := "Web Scraping",
    requiredNodeTypes := ["Web-Scraping", "End"],
    connections := [⟨"Web-Scraping→End", "Content→End"⟩],
    endpoint := "http://localhost:8000/component/webscraping" },
  { id := "wikipedia", name := "Wikipedia Research",
    requiredNodeTypes := ["Wikipedia", "End"],
    connections := [⟨"Wikipedia→End", "Information→End"⟩],
    endpoint := "http://localhost:8000/component/wikipedia" },
  { id := "youtube", name := "YouTube Analysis",
    requiredNodeTypes := ["YouTube", "End"],
    connections := [⟨"YouTube→End", "Analysis→End"⟩],
    endpoint := "http://localhost:8000/component/youtube" },
  { id := "financial-analysis", name := "Financial Analysis",
    requiredNodeTypes := ["Financial-Analysis", "End"],
    connections := [⟨"Financial-Analysis→End", "Analysis→End"⟩],
    endpoint := "http://localhost:8000/component/financial" },
  { id := "local-filesystem", name := "Local File System",
    requiredNodeTypes := ["Local-FileSystem", "End"],
    connections := [⟨"Local-FileSystem→End", "Result→End"⟩],
    endpoint := "http://localhost:8000/component/localfs" }]

/-! ## Pattern matcher (Playground: checkWorkflowPattern / detectWorkflowPattern) -/

/-- JS object property lookup on the `connections` record, modelled as an
association list in key-creation order (keys are unique by construction). -/
def alookup (k : String) : List (String × List String) → Option (List String)
  | [] => none
  | (k', v) :: rest => if k' = k then some v else alookup k rest

/-- `if (!connections[connection]) connections[connection] = [];` -/
def ensureKey (acc : List (String × List String)) (k : String) : List (String × List String) :=
  if (alookup k acc).isSome then acc else acc ++ [(k, [])]

/-- `connections[connection].push(v)` : append `v` to the entry of key `k`. -/
def pushEntry : List (String × List String) → String → String → List (String × List String)
  | [], _, _ => []
  | (k', l) :: rest, k, v =>
    if k' = k then (k', l ++ [v]) :: rest else (k', l) :: pushEntry rest k v

/-- One iteration of the `edges.forEach` loop building the `connections`
record in `checkWorkflowPattern` (part_000 lines 1045-1059). -/
def connStep (nodes : List NodeData) (acc : List (String × List String))
    (edge : EdgeData) : List (String × List String) :=
  match nodes.find? (fun n => n.id == edge.source),
        nodes.find? (fun n => n.id == edge.target) with
  | some sourceNode, some targetNode =>
    let connection := connKey sourceNode.type targetNode.type
    let acc1 := ensureKey acc connection
    match sourceNode.data.outputs.find? (fun o => o.id == edge.sourceHandle),
          targetNode.data.inputs.find? (fun i => i.id == edge.targetHandle) with
    | some sourceOutput, some targetInput =>
        pushEntry acc1 connection (connKey sourceOutput.name targetInput.name)
    | _, _ => acc1
  | _, _ => acc

/-- The `connections` record after the full `edges.forEach` loop. -/
def buildConnections (nodes : List NodeData) (edges : List EdgeData) :
    List (String × List String) :=
  edges.foldl (connStep nodes) []

/-- The body of the `some` callback testing one collected connection string
against a required `portConnection` (part_000 lines 1064-1071).  JS
destructuring `const [a, b] = parts` yields `undefined` past the end; that
case is unreachable for the strings the loop stores (they always contain an
arrow), and is modelled by the default `""`. -/
def connEntryMatches (conn portConnection : String) : Bool :=
  let parts := jsSplit '→' conn
  let sourcePort := parts.getD 0 ""
  let targetPort := parts.getD 1 ""
  let eparts := jsSplit '→' portConnection
  let expectedSourcePort := eparts.getD 0 ""
  let expectedTargetPort := eparts.getD 1 ""
  jsIncludes (jsToLower sourcePort) (jsToLower expectedSourcePort) &&
  jsIncludes (jsToLower targetPort) (jsToLower expectedTargetPort)

/-- The per-constraint test of the `for (const {nodeConnection, portConnection}
of pattern.connections)` loop: fail when the key was never created (a JS empty
array is truthy, so an empty entry passes the first test but fails `some`). -/
def connectionCheckOne (conns : List (String × List String)) (c : ConnectionPattern) : Bool :=
  match alookup c.nodeConnection conns with
  | none => false
  | some entries => entries.any (fun conn => connEntryMatches conn c.portConnection)

/-- `checkWorkflowPattern(nodes, edges, patternId)` (part_000 lines 1019-1077).
The JS length-and-elementwise comparison of the two sorted arrays is exactly
list equality.  The `nodeTypeMap` presence check asks that each required type
has at least one node. -/
def checkWorkflowPattern (nodes : List NodeData) (edges : List EdgeData)
    (patternId : String) : Bool :=
  match workflowPatterns.find? (fun p => p.id == patternId) with
  | none => false
  | some pattern =>
    let patternNodeTypes := jsSortStrings pattern.requiredNodeTypes
    let workflowNodeTypes := jsSortStrings (jsSetDedup (nodes.map (fun n => n.type)))
    if patternNodeTypes = workflowNodeTypes then
      if pattern.requiredNodeTypes.all (fun t => nodes.any (fun n => n.type == t)) then
        pattern.connections.all (fun c => connectionCheckOne (buildConnections nodes edges) c)
      else false
    else false

/-- `detectWorkflowPattern(nodes, edges)` (part_000 lines 1079-1089): first
catalog pattern whose check passes, with its endpoint. -/
def detectWorkflowPattern (nodes : List NodeData) (edges : List EdgeData) :
    Option (String × String) :=
  (workflowPatterns.find? (fun p => checkWorkflowPattern nodes edges p.id)).map
    (fun p => (p.id, p.endpoint))

/-- The dispatch decision in `handlePlayClick`: with no detected pattern the
caller takes the generic dynamic-workflow branch. -/
def usesGenericDispatch (nodes : List NodeData) (edges : List EdgeData) : Bool :=
  (detectWorkflowPattern nodes edges).isNone

/-! ## Graph model operations (Playground and the Workspace delete handler) -/

/-- Graph state owned by the Playground component. -/
structure GraphState where
  nodes : List NodeData
  edges : List EdgeData

def nodeIdList (nodes : List NodeData) : List String := nodes.map (fun n => n.id)

/-- `handleAddEdge` (part_000 lines 968-976): insert unless an edge with the
same `(source, target, sourceHandle, targetHandle)` tuple exists; the fresh
`edge-${Date.now()}` id is supplied as `freshId`. -/
def sameTupleAs (edge e : EdgeData) : Bool :=
  e.source == edge.source && e.target == edge.target &&
  e.sourceHandle == edge.sourceHandle && e.targetHandle == edge.targetHandle

def handleAddEdge (edges : List EdgeData) (edge : EdgeData) (freshId : String) :
    List EdgeData :=
  let edgeExists := edges.any (sameTupleAs edge)
  if edgeExists then edges
  else edges ++ [{ edge with id := freshId }]

/-- `handleRemoveEdge` (part_000 lines 978-980). -/
def handleRemoveEdge (edges : List EdgeData) (edgeId : String) : List EdgeData :=
  edges.filter (fun e => e.id != edgeId)

/-- The Playground edge-cleanup effect (part_000 lines 782-791): whenever the
node id list changes, drop every edge whose source or target id is not a
current node id.  (The effect only calls `setEdges` when something is invalid;
the resulting state is the same as filtering unconditionally.) -/
def cleanupEdges (nodes : List NodeData) (edges : List EdgeData) : List EdgeData :=
  let nodeIds := nodeIdList nodes
  edges.filter (fun e => nodeIds.elem e.source && nodeIds.elem e.target)

/-- The Workspace node-delete click handler (part_004 lines 933-954).
Each `onRemoveEdge(edge.id)` call runs `handleRemoveEdge` against the edge
list captured in the render-time closure, and the queued `setEdges`
replacements overwrite one another inside the event batch, so only the last
call's filter survives: the fold below recomputes from the original `edges`
on every step, discarding its accumulator, which is exactly that behaviour. -/
def deleteNodeClick (s : GraphState) (nid : String) : GraphState :=
  let connectedEdges := s.edges.filter (fun e => e.source == nid || e.target == nid)
  let edges := connectedEdges.foldl (fun _cur e => handleRemoveEdge s.edges e.id) s.edges
  let nodes := s.nodes.filter (fun n => n.id != nid)
  ⟨nodes, edges⟩

/-- One user-level graph operation, as dispatched by the UI. -/
inductive GraphOp where
  | addNode (n : NodeData)
  | removeNode (nid : String)
  | addEdge (e : EdgeData) (freshId : String)
  | removeEdge (eid : String)

/-- Applying one operation, including the Playground cleanup effect that the
React commit triggers whenever the node id list changes (node additions and
removals); edge-only updates leave the effect's dependencies unchanged. -/
def applyOp (s : GraphState) : GraphOp → GraphState
  | .addNode n =>
    let nodes := s.nodes ++ [n]
    ⟨nodes, cleanupEdges nodes s.edges⟩
  | .removeNode nid =>
    let t := deleteNodeClick s nid
    ⟨t.nodes, cleanupEdges t.nodes t.edges⟩
  | .addEdge e freshId => ⟨s.nodes, handleAddEdge s.edges e freshId⟩
  | .removeEdge eid => ⟨s.nodes, handleRemoveEdge s.edges eid⟩

def applyOps (s : GraphState) (ops : List GraphOp) : GraphState :=
  ops.foldl applyOp s

/-- Every edge's endpoints refer to live nodes (no dangling edge). -/
def edgesValid (s : GraphState) : Bool :=
  s.edges.all (fun e =>
    (nodeIdList s.nodes).elem e.source && (nodeIdList s.nodes).elem e.target)

/-- Side condition the UI establishes for `addEdge`: a proposed connection's
endpoints come from rendered (live) ports, so both node ids are live.  The
other operations need no side condition. -/
def opOk (s : GraphState) : GraphOp → Bool
  | .addEdge e _ => (nodeIdList s.nodes).elem e.source && (nodeIdList s.nodes).elem e.target
  | _ => true

def opsOk : GraphState → List GraphOp → Bool
  | _, [] => true
  | s, op :: rest => opOk s op && opsOk (applyOp s op) rest

/-! ## Viewport transform and zoom (Workspace, part_004) -/

/-- `const MIN_ZOOM = 0.5` (part_004 line 66). -/
def MIN_ZOOM : ℚ := 1/2

/-- `const MAX_ZOOM = 2` (part_004 line 67). -/
def MAX_ZOOM : ℚ := 2

/-- Screen-to-canvas conversion as computed by `handleDrop` (part_004 lines
244-245) and by the pointer handlers: the screen point is already relative to
the workspace rectangle. -/
def toCanvas (s : ℚ × ℚ) (scale : ℚ) (offset : ℚ × ℚ) : ℚ × ℚ :=
  (s.1 / scale - offset.1, s.2 / scale - offset.2)

/-- Canvas-to-screen conversion as applied by the transform container style
`transform: scale(scale) translate(offset.x, offset.y)` (part_004 lines
848-857): a content point `c` is rendered at `(c + offset) * scale`. -/
def toScreen (c : ℚ × ℚ) (scale : ℚ) (offset : ℚ × ℚ) : ℚ × ℚ :=
  ((c.1 + offset.1) * scale, (c.2 + offset.2) * scale)

/-- The clamped scale computed by `handleZoom` and `handleWheelEvent`:
`Math.min(Math.max(scale + delta, MIN_ZOOM), MAX_ZOOM)`. -/
def handleZoomScale (scale delta : ℚ) : ℚ :=
  min (max (scale + delta) MIN_ZOOM) MAX_ZOOM

/-- `handleZoom` (part_004 lines 119-129; `handleWheelEvent`, lines 134-147,
performs the identical update with `delta = ±0.1`): the new offset adds
`-(newScale - scale) / newScale` to each coordinate, with no dependence on
any pointer/pivot position. -/
def handleZoom (scale : ℚ) (offset : ℚ × ℚ) (delta : ℚ) : ℚ × (ℚ × ℚ) :=
  let newScale := handleZoomScale scale delta
  let newOffsetX := (-1 * (newScale - scale)) / newScale + offset.1
  let newOffsetY := (-1 * (newScale - scale)) / newScale + offset.2
  (newScale, (newOffsetX, newOffsetY))

/-! ## Connection dragging (Workspace handleFieldMouseDown, part_004) -/

/-- The `connectionStart` record. -/
structure ConnectionState where
  nodeId : String
  fieldId : String
  type : String
deriving DecidableEq, Repr

/-- The transient drag-tracking state of the Workspace. -/
structure WorkspaceDragState where
  connectionStart : Option ConnectionState
  mousePosition : ℚ × ℚ
deriving DecidableEq, Repr

/-- The entry logic of `handleFieldMouseDown` (part_004 lines 394-416): the
guard admits a pointer-down on an output port, or on an input port while a
drag from an output is already in progress; on entry it captures the origin
port and converts the pointer to canvas space for the preview.  `client` is
the pointer position and `rectTL` the workspace rectangle's top-left. -/
def handleFieldMouseDown (st : WorkspaceDragState) (nodeId fieldId fieldType : String)
    (client rectTL : ℚ × ℚ) (scale : ℚ) (offset : ℚ × ℚ) : WorkspaceDragState :=
  let fromOutput :=
    match st.connectionStart with
    | some cs => cs.type == "output"
    | none => false
  if (fieldType == "input" && fromOutput) || fieldType == "output" then
    { connectionStart := some ⟨nodeId, fieldId, fieldType⟩,
      mousePosition := toCanvas (client.1 - rectTL.1, client.2 - rectTL.2) scale offset }
  else st

/-- The snap search of the drag's `handleMouseMove` (part_004 lines 427-440):
nearest field-anchor within `40 / scale` canvas units of the canvas-space
pointer `m`.  Distances are compared squared; the JS code compares
`Math.sqrt` values against `40 / scale` and against the running minimum, and
squaring preserves both comparisons for nonnegative quantities, so the
selected candidate is identical.  `none` in the second component models the
initial `minDistance = Infinity`. -/
def snapStep (snapDistanceSq : ℚ) (m : ℚ × ℚ) (acc : Option String × Option ℚ)
    (fp : String × (ℚ × ℚ)) : Option String × Option ℚ :=
  let dSq := (fp.2.1 - m.1) ^ 2 + (fp.2.2 - m.2) ^ 2
  match acc.2 with
  | none => if dSq ≤ snapDistanceSq then (some fp.1, some dSq) else acc
  | some minD => if dSq < minD ∧ dSq ≤ snapDistanceSq then (some fp.1, some dSq) else acc

def findSnapCandidate (fieldPositions : List (String × (ℚ × ℚ)))
    (m : ℚ × ℚ) (scale : ℚ) : Option String :=
  (fieldPositions.foldl (snapStep ((40 / scale) ^ 2) m) (none, none)).1

/-- The `data-field-id` / `data-node-id` / `data-field-type` attributes of a
rendered port element queried by the release handler. -/
structure FieldInfo where
  fieldId : String
  nodeId : String
  fieldType : String
deriving DecidableEq, Repr

/-- The release logic of the connection drag (`handleMouseUp`, part_004 lines
444-507): if a snap candidate exists and resolves in the DOM, and directions
are opposite and the nodes differ, propose the edge (output end as source)
through `handleAddEdge`; otherwise leave the edges untouched.  In all cases
`connectionStart` is reset to `null`. -/
def connectionMouseUp (edges : List EdgeData) (domFields : List FieldInfo)
    (candidate : Option String) (start : ConnectionState) (freshId : String) :
    List EdgeData × Option ConnectionState :=
  match candidate with
  | none => (edges, none)
  | some fid =>
    match domFields.find? (fun f => f.fieldId == fid) with
    | none => (edges, none)
    | some f =>
      let isValidConnection :=
        (start.type == "output" && f.fieldType == "input") ||
        (start.type == "input" && f.fieldType == "output")
      if isValidConnection && f.nodeId != start.nodeId then
        let source := if start.type == "output" then start.nodeId else f.nodeId
        let sourceHandle := if start.type == "output" then start.fieldId else f.fieldId
        let target := if start.type == "output" then f.nodeId else start.nodeId
        let targetHandle := if start.type == "output" then f.fieldId else start.fieldId
        (handleAddEdge edges ⟨"temp-id", source, sourceHandle, target, targetHandle⟩ freshId,
         none)
      else (edges, none)

/-! ## Spec-side matching predicate and edge-resolution views -/

/-- Modelled from the spec: the symmetric matching relation of section 4.6
step 3 — the actual name "case-insensitively contains or is contained by" the
expected name.  For comparison with the code's one-directional test. -/
def specPortNamesCompatible (actual expected : String) : Bool :=
  jsIncludes (jsToLower actual) (jsToLower expected) ||
  jsIncludes (jsToLower expected) (jsToLower actual)

/-- A string with no arrow character, so that the matcher's join-then-split
round-trips it. -/
def arrowFree (s : String) : Prop := '→' ∉ s.data

instance (s : String) : Decidable (arrowFree s) := by
  unfold arrowFree; infer_instance

/-- Node-endpoint resolution of an edge (the two `nodes.find` lookups of the
forEach body), yielding the `sourceType→targetType` key when both resolve. -/
def edgeKey (nodes : List NodeData) (e : EdgeData) : Option String :=
  match nodes.find? (fun n => n.id == e.source),
        nodes.find? (fun n => n.id == e.target) with
  | some sn, some tn => some (connKey sn.type tn.type)
  | _, _ => none

/-- Full resolution of an edge: nodes and the handle-designated ports, giving
the key together with the pushed `outputName→inputName` entry. -/
def edgeEntry (nodes : List NodeData) (e : EdgeData) : Option (String × String) :=
  match nodes.find? (fun n => n.id == e.source),
        nodes.find? (fun n => n.id == e.target) with
  | some sn, some tn =>
    match sn.data.outputs.find? (fun o => o.id == e.sourceHandle),
          tn.data.inputs.find? (fun i => i.id == e.targetHandle) with
    | some so, some ti => some (connKey sn.type tn.type, connKey so.name ti.name)
    | _, _ => none
  | _, _ => none

/-- The connection strings stored under key `k` by the forEach loop, in edge
order. -/
def collectedEntries (nodes : List NodeData) (k : String) (edges : List EdgeData) :
    List String :=
  edges.filterMap (fun e =>
    (edgeEntry nodes e).bind (fun kv => if kv.1 = k then some kv.2 else none))

/-- Whether some edge's node endpoints resolve to the key `k` (which is what
creates the key's entry in the record, even when a port lookup fails). -/
def keyCreated (nodes : List NodeData) (k : String) (edges : List EdgeData) : Bool :=
  edges.any (fun e => edgeKey nodes e == some k)

/-! ## Concrete graphs (nodes instantiated from nodeTemplates, part_000) -/

/-- A `Text-Input-Tool` instance. -/
def textInputToolNode : NodeData :=
  { id := "node-tin", type := "Text-Input-Tool", position := (0, 0),
    data := { label := "Text-Input-Tool",
              inputs := [⟨"input-1", "Text", "string", "input", none⟩],
              outputs := [⟨"output-1", "Text", "string", "output", none⟩] } }

/-- A `Text-Agent` instance. -/
def textAgentNode : NodeData :=
  { id := "node-ta", type := "Text-Agent", position := (0, 0),
    data := { label := "Text-Agent",
              inputs := [⟨"input-1", "Tools", "tool", "none", none⟩,
                         ⟨"input-2", "Instructions", "string", "input", none⟩,
                         ⟨"input-3", "Query", "none", "input", none⟩,
                         ⟨"input-4", "LLM", "string", "input", none⟩,
                         ⟨"input-5", "API Key", "string", "input", none⟩],
              outputs := [⟨"output-1", "Output", "string", "output", none⟩] } }

/-- An `End` instance. -/
def endNode : NodeData :=
  { id := "node-end", type := "End", position := (0, 0),
    data := { label := "End",
              inputs := [⟨"input-1", "End", "none", "input", none⟩],
              outputs := [] } }

/-- A `Calculator` instance. -/
def calculatorNode : NodeData :=
  { id := "node-calc", type := "Calculator", position := (0, 0),
    data := { label := "Calculator",
              inputs := [⟨"input-1", "Expression", "string", "input", none⟩,
                         ⟨"input-2", "LLM", "string", "input", none⟩],
              outputs := [⟨"output-1", "Result", "number", "output", none⟩] } }

/-- `Text-Input-Tool.Text → Text-Agent.Query`. -/
def scenarioEdge1 : EdgeData := ⟨"edge-1", "node-tin", "output-1", "node-ta", "input-3"⟩

/-- `Text-Agent.Output → End.End`. -/
def scenarioEdge2 : EdgeData := ⟨"edge-2", "node-ta", "output-1", "node-end", "input-1"⟩

/-- The spec's `text-agent` scenario graph. -/
def scenarioNodes : List NodeData := [textInputToolNode, textAgentNode, endNode]

def scenarioEdges : List EdgeData := [scenarioEdge1, scenarioEdge2]

/-- The same graph plus one extra unconnected `Calculator` node. -/
def scenarioNodesPlusCalc : List NodeData :=
  [textInputToolNode, textAgentNode, endNode, calculatorNode]

/-- The catalog entry with id `text-agent`. -/
def textAgentCatalogPattern : WorkflowPattern :=
  { id := "text-agent", name := "Text Agent Workflow",
    requiredNodeTypes := ["Text-Agent", "Text-Input-Tool", "End"],
    connections := [
      ⟨"Text-Input-Tool→Text-Agent", "Text→Query"⟩,
      ⟨"Text-Agent→End", "Output→End"⟩],
    endpoint := "http://localhost:8000/text_agent" }

/-- A `Text-Input-Tool` whose output is labelled `Te` — a strict substring of
the expected `Text`, to separate "contains" from "is contained by". -/
def textInputToolTeNode : NodeData :=
  { id := "node-tin", type := "Text-Input-Tool", position := (0, 0),
    data := { label := "Text-Input-Tool",
              inputs := [⟨"input-1", "Text", "string", "input", none⟩],
              outputs := [⟨"output-1", "Te", "string", "output", none⟩] } }

def ceNodes : List NodeData := [textInputToolTeNode, textAgentNode, endNode]

/-! ## Helper lemmas: split round-trip, sort and dedup membership -/

theorem splitChar_ne_nil (sep : Char) (l : List Char) : splitChar sep l ≠ [] := by
  cases l with
  | nil => simp [splitChar]
  | cons c cs =>
    simp only [splitChar]
    split
    · simp
    · intro h
      have hne := splitChar_ne_nil sep cs
      cases hh : splitChar sep cs with
      | nil => exact hne hh
      | cons a as => rw [hh] at h; simp [List.modifyHead] at h

theorem splitChar_not_mem (sep : Char) (l : List Char) (h : sep ∉ l) :
    splitChar sep l = [l] := by
  induction l with
  | nil => rfl
  | cons c cs ih =>
    simp only [List.mem_cons, not_or] at h
    simp only [splitChar, if_neg (Ne.symm h.1), ih h.2, List.modifyHead]

theorem splitChar_append (sep : Char) (a b : List Char) (ha : sep ∉ a) (hb : sep ∉ b) :
    splitChar sep (a ++ sep :: b) = [a, b] := by
  induction a with
  | nil => simp [splitChar, splitChar_not_mem sep b hb]
  | cons c cs ih =>
    simp only [List.mem_cons, not_or] at ha
    simp only [List.cons_append, splitChar, if_neg (Ne.symm ha.1), List.append_eq,
      ih ha.2, List.modifyHead]

theorem string_mk_data (s : String) : String.mk s.data = s := rfl

theorem connKey_data (a b : String) : (connKey a b).data = a.data ++ '→' :: b.data := by
  have h : ("→" : String).data = ['→'] := by decide
  simp [connKey, String.data_append, h]

theorem jsSplit_connKey (a b : String) (ha : arrowFree a) (hb : arrowFree b) :
    jsSplit '→' (connKey a b) = [a, b] := by
  unfold jsSplit
  rw [connKey_data, splitChar_append '→' a.data b.data ha hb]
  simp [string_mk_data]

theorem connEntryMatches_connKey (a b p q : String)
    (ha : arrowFree a) (hb : arrowFree b) (hp : arrowFree p) (hq : arrowFree q) :
    connEntryMatches (connKey a b) (connKey p q) =
      (jsIncludes (jsToLower a) (jsToLower p) && jsIncludes (jsToLower b) (jsToLower q)) := by
  unfold connEntryMatches
  rw [jsSplit_connKey a b ha hb, jsSplit_connKey p q hp hq]
  rfl

theorem mem_jsInsert (a x : String) (l : List String) :
    a ∈ jsInsert x l ↔ a = x ∨ a ∈ l := by
  induction l with
  | nil => simp [jsInsert]
  | cons y ys ih =>
    simp only [jsInsert]
    split
    · simp
    · simp [ih]
      tauto

theorem mem_jsSortStrings (a : String) (l : List String) :
    a ∈ jsSortStrings l ↔ a ∈ l := by
  induction l with
  | nil => simp [jsSortStrings]
  | cons x xs ih => simp [jsSortStrings, mem_jsInsert, ih]

theorem mem_jsSetDedupGo (a : String) (seen l : List String) :
    a ∈ jsSetDedupGo seen l ↔ a ∈ l ∧ a ∉ seen := by
  induction l generalizing seen with
  | nil => simp [jsSetDedupGo]
  | cons x xs ih =>
    simp only [jsSetDedupGo]
    split
    · rename_i hx
      rw [ih]
      simp only [List.mem_cons]
      constructor
      · rintro ⟨h1, h2⟩; exact ⟨Or.inr h1, h2⟩
      · rintro ⟨h1 | h1, h2⟩
        · exact absurd (h1 ▸ hx) h2
        · exact ⟨h1, h2⟩
    · rename_i hx
      simp only [List.mem_cons, ih, List.mem_cons, not_or]
      constructor
      · rintro (h | ⟨h1, h2, h3⟩)
        · exact ⟨Or.inl h, h ▸ hx⟩
        · exact ⟨Or.inr h1, h3⟩
      · rintro ⟨h1 | h1, h2⟩
        · exact Or.inl h1
        · by_cases hax : a = x
          · exact Or.inl hax
          · exact Or.inr ⟨h1, hax, h2⟩

theorem mem_jsSetDedup (a : String) (l : List String) :
    a ∈ jsSetDedup l ↔ a ∈ l := by
  simp [jsSetDedup, mem_jsSetDedupGo]

/-! ## Helper lemmas: the connections record -/

theorem alookup_append (k : String) (l1 l2 : List (String × List String)) :
    alookup k (l1 ++ l2) = ((alookup k l1).or (alookup k l2)) := by
  induction l1 with
  | nil => simp [alookup]
  | cons kv rest ih =>
    obtain ⟨k', v⟩ := kv
    simp only [List.cons_append, alookup]
    split
    · simp
    · exact ih

theorem alookup_ensureKey_self (acc : List (String × List String)) (k : String) :
    alookup k (ensureKey acc k) = some ((alookup k acc).getD []) := by
  unfold ensureKey
  split
  · rename_i h
    cases hh : alookup k acc with
    | none => rw [hh] at h; simp at h
    | some l => simp [hh]
  · rename_i h
    cases hh : alookup k acc with
    | none => simp [alookup_append, hh, alookup]
    | some l => rw [hh] at h; simp at h

theorem alookup_ensureKey_ne (acc : List (String × List String)) (k k' : String)
    (h : k' ≠ k) : alookup k (ensureKey acc k') = alookup k acc := by
  unfold ensureKey
  split
  · rfl
  · simp [alookup_append, alookup, if_neg h]

theorem alookup_pushEntry_self (acc : List (String × List String)) (k v : String) :
    alookup k (pushEntry acc k v) = (alookup k acc).map (fun l => l ++ [v]) := by
  induction acc with
  | nil => simp [pushEntry, alookup]
  | cons kv rest ih =>
    obtain ⟨k', l⟩ := kv
    simp only [pushEntry, alookup]
    split
    · rename_i he; simp [alookup, he]
    · rename_i he; simp [alookup, he, ih]

theorem alookup_pushEntry_ne (acc : List (String × List String)) (k k' v : String)
    (h : k' ≠ k) : alookup k (pushEntry acc k' v) = alookup k acc := by
  induction acc with
  | nil => simp [pushEntry, alookup]
  | cons kv rest ih =>
    obtain ⟨k'', l⟩ := kv
    simp only [pushEntry, alookup]
    by_cases h1 : k'' = k'
    · subst h1
      simp [if_pos rfl, alookup, if_neg h]
    · by_cases h2 : k'' = k
      · subst h2
        simp [if_neg h1, alookup, if_pos rfl]
      · simp [if_neg h1, alookup, if_neg h2, ih]

theorem alookup_foldl_connStep (nodes : List NodeData) (k : String) :
    ∀ (edges : List EdgeData) (acc : List (String × List String)),
    alookup k (edges.foldl (connStep nodes) acc) =
      (match alookup k acc with
       | some l => some (l ++ collectedEntries nodes k edges)
       | none =>
         if keyCreated nodes k edges then some (collectedEntries nodes k edges)
         else none) := by
  intro edges
  induction edges with
  | nil =>
    intro acc
    cases hacc : alookup k acc <;>
      simp [hacc, collectedEntries, keyCreated]
  | cons e es ih =>
    intro acc
    rw [List.foldl_cons, ih]
    cases h1 : nodes.find? (fun n => n.id == e.source) with
    | none =>
      have hstep : connStep nodes acc e = acc := by
        simp only [connStep, h1]
      have hkey : edgeKey nodes e = none := by
        simp only [edgeKey, h1]
      have hentry : edgeEntry nodes e = none := by
        simp only [edgeEntry, h1]
      rw [hstep]
      cases hacc : alookup k acc <;>
        simp [hacc, collectedEntries, keyCreated, List.filterMap_cons, hentry, hkey]
    | some sn =>
      cases h2 : nodes.find? (fun n => n.id == e.target) with
      | none =>
        have hstep : connStep nodes acc e = acc := by
          simp only [connStep, h1, h2]
        have hkey : edgeKey nodes e = none := by
          simp only [edgeKey, h1, h2]
        have hentry : edgeEntry nodes e = none := by
          simp only [edgeEntry, h1, h2]
        rw [hstep]
        cases hacc : alookup k acc <;>
          simp [hacc, collectedEntries, keyCreated, List.filterMap_cons, hentry, hkey]
      | some tn =>
        have hkey : edgeKey nodes e = some (connKey sn.type tn.type) := by
          simp only [edgeKey, h1, h2]
        cases h3 : sn.data.outputs.find? (fun o => o.id == e.sourceHandle) with
        | none =>
          have hstep : connStep nodes acc e = ensureKey acc (connKey sn.type tn.type) := by
            simp only [connStep, h1, h2, h3]
          have hentry : edgeEntry nodes e = none := by
            simp only [edgeEntry, h1, h2, h3]
          rw [hstep]
          by_cases hk : connKey sn.type tn.type = k
          · subst hk
            rw [alookup_ensureKey_self]
            cases hacc : alookup (connKey sn.type tn.type) acc <;>
              simp [hacc, collectedEntries, keyCreated, List.filterMap_cons, hentry, hkey]
          · rw [alookup_ensureKey_ne acc k _ hk]
            cases hacc : alookup k acc <;>
              simp [hacc, collectedEntries, keyCreated, List.filterMap_cons, hentry, hkey, hk]
        | some so =>
          cases h4 : tn.data.inputs.find? (fun i => i.id == e.targetHandle) with
          | none =>
            have hstep : connStep nodes acc e = ensureKey acc (connKey sn.type tn.type) := by
              simp only [connStep, h1, h2, h3, h4]
            have hentry : edgeEntry nodes e = none := by
              simp only [edgeEntry, h1, h2, h3, h4]
            rw [hstep]
            by_cases hk : connKey sn.type tn.type = k
            · subst hk
              rw [alookup_ensureKey_self]
              cases hacc : alookup (connKey sn.type tn.type) acc <;>
                simp [hacc, collectedEntries, keyCreated, List.filterMap_cons, hentry, hkey]
            · rw [alookup_ensureKey_ne acc k _ hk]
              cases hacc : alookup k acc <;>
                simp [hacc, collectedEntries, keyCreated, List.filterMap_cons, hentry, hkey, hk]
          | some ti =>
            have hstep : connStep nodes acc e =
                pushEntry (ensureKey acc (connKey sn.type tn.type))
                  (connKey sn.type tn.type) (connKey so.name ti.name) := by
              simp only [connStep, h1, h2, h3, h4]
            have hentry : edgeEntry nodes e =
                some (connKey sn.type tn.type, connKey so.name ti.name) := by
              simp only [edgeEntry, h1, h2, h3, h4]
            rw [hstep]
            by_cases hk : connKey sn.type tn.type = k
            · subst hk
              rw [alookup_pushEntry_self, alookup_ensureKey_self]
              cases hacc : alookup (connKey sn.type tn.type) acc <;>
                simp [hacc, collectedEntries, keyCreated, List.filterMap_cons, hentry, hkey]
            · rw [alookup_pushEntry_ne _ k _ _ hk, alookup_ensureKey_ne acc k _ hk]
              cases hacc : alookup k acc <;>
                simp [hacc, collectedEntries, keyCreated, List.filterMap_cons, hentry, hkey, hk]

theorem edgeEntry_eq_some (nodes : List NodeData) (e : EdgeData) (kv : String × String) :
    edgeEntry nodes e = some kv ↔
      ∃ sn tn so ti,
        nodes.find? (fun n => n.id == e.source) = some sn ∧
        nodes.find? (fun n => n.id == e.target) = some tn ∧
        sn.data.outputs.find? (fun o => o.id == e.sourceHandle) = some so ∧
        tn.data.inputs.find? (fun i => i.id == e.targetHandle) = some ti ∧
        kv = (connKey sn.type tn.type, connKey so.name ti.name) := by
  constructor
  · intro h
    cases h1 : nodes.find? (fun n => n.id == e.source) with
    | none => simp only [edgeEntry, h1] at h; exact Option.noConfusion h
    | some sn =>
      cases h2 : nodes.find? (fun n => n.id == e.target) with
      | none => simp only [edgeEntry, h1, h2] at h; exact Option.noConfusion h
      | some tn =>
        cases h3 : sn.data.outputs.find? (fun o => o.id == e.sourceHandle) with
        | none => simp only [edgeEntry, h1, h2, h3] at h; exact Option.noConfusion h
        | some so =>
          cases h4 : tn.data.inputs.find? (fun i => i.id == e.targetHandle) with
          | none => simp only [edgeEntry, h1, h2, h3, h4] at h; exact Option.noConfusion h
          | some ti =>
            simp only [edgeEntry, h1, h2, h3, h4, Option.some.injEq] at h
            exact ⟨sn, tn, so, ti, rfl, rfl, h3, h4, h.symm⟩
  · rintro ⟨sn, tn, so, ti, h1, h2, h3, h4, rfl⟩
    simp only [edgeEntry, h1, h2, h3, h4]

/-- Claim C2 (amended): in the connection-satisfaction step, a required
`(p→q)` port constraint under node-pair key `nc` is satisfied if and only if
some edge fully resolves to that node-type pair and the actual output/input
names case-insensitively CONTAIN the expected names (the converse
"is contained by" direction of the spec does not satisfy the code's test).
Stated for arrow-free port names, under which the matcher's join-then-split
of name pairs round-trips. -/
theorem C2_connection_satisfaction_contains_only
    (nodes : List NodeData) (edges : List EdgeData) (nc p q : String)
    (hp : arrowFree p) (hq : arrowFree q)
    (hnames : ∀ n ∈ nodes, (∀ o ∈ n.data.outputs, arrowFree o.name) ∧
                           (∀ i ∈ n.data.inputs, arrowFree i.name)) :
    connectionCheckOne (buildConnections nodes edges) ⟨nc, connKey p q⟩ = true ↔
      ∃ e ∈ edges, ∃ sn tn so ti,
        nodes.find? (fun n => n.id == e.source) = some sn ∧
        nodes.find? (fun n => n.id == e.target) = some tn ∧
        connKey sn.type tn.type = nc ∧
        sn.data.outputs.find? (fun o => o.id == e.sourceHandle) = some so ∧
        tn.data.inputs.find? (fun i => i.id == e.targetHandle) = some ti ∧
        jsIncludes (jsToLower so.name) (jsToLower p) = true ∧
        jsIncludes (jsToLower ti.name) (jsToLower q) = true := by
  unfold connectionCheckOne buildConnections
  rw [alookup_foldl_connStep nodes nc edges []]
  simp only [alookup]
  cases hkc : keyCreated nodes nc edges with
  | false =>
    simp only [Bool.false_eq_true, if_false]
    constructor
    · intro h; exact absurd h (by simp)
    · rintro ⟨e, he, sn, tn, so, ti, h1, h2, hk, h3, h4, hinc1, hinc2⟩
      exfalso
      have hkey : edgeKey nodes e = some nc := by
        simp only [edgeKey, h1, h2, hk]
      have : keyCreated nodes nc edges = true := by
        unfold keyCreated
        rw [List.any_eq_true]
        exact ⟨e, he, by simp [hkey]⟩
      rw [hkc] at this
      exact absurd this (by simp)
  | true =>
    simp only [if_true]
    rw [List.any_eq_true]
    constructor
    · rintro ⟨v, hv, hmatch⟩
      unfold collectedEntries at hv
      rw [List.mem_filterMap] at hv
      obtain ⟨e, he, hf⟩ := hv
      rw [Option.bind_eq_some] at hf
      obtain ⟨kv, hkv, hif⟩ := hf
      by_cases hk : kv.1 = nc
      · rw [if_pos hk, Option.some.injEq] at hif
        rw [edgeEntry_eq_some] at hkv
        obtain ⟨sn, tn, so, ti, h1, h2, h3, h4, hkveq⟩ := hkv
        have hso : arrowFree so.name :=
          (hnames sn (List.mem_of_find?_eq_some h1)).1 so (List.mem_of_find?_eq_some h3)
        have hti : arrowFree ti.name :=
          (hnames tn (List.mem_of_find?_eq_some h2)).2 ti (List.mem_of_find?_eq_some h4)
        have hv2 : v = connKey so.name ti.name := by
          rw [hkveq] at hif; rw [← hif]
        have hk2 : connKey sn.type tn.type = nc := by
          rw [hkveq] at hk; exact hk
        rw [hv2, connEntryMatches_connKey so.name ti.name p q hso hti hp hq,
          Bool.and_eq_true] at hmatch
        exact ⟨e, he, sn, tn, so, ti, h1, h2, hk2, h3, h4, hmatch.1, hmatch.2⟩
      · rw [if_neg hk] at hif
        exact absurd hif (by simp)
    · rintro ⟨e, he, sn, tn, so, ti, h1, h2, hk, h3, h4, hinc1, hinc2⟩
      have hso : arrowFree so.name :=
        (hnames sn (List.mem_of_find?_eq_some h1)).1 so (List.mem_of_find?_eq_some h3)
      have hti : arrowFree ti.name :=
        (hnames tn (List.mem_of_find?_eq_some h2)).2 ti (List.mem_of_find?_eq_some h4)
      refine ⟨connKey so.name ti.name, ?_, ?_⟩
      · unfold collectedEntries
        rw [List.mem_filterMap]
        refine ⟨e, he, ?_⟩
        have hkv : edgeEntry nodes e =
            some (connKey sn.type tn.type, connKey so.name ti.name) := by
          rw [edgeEntry_eq_some]
          exact ⟨sn, tn, so, ti, h1, h2, h3, h4, rfl⟩
        rw [hkv]
        simp [hk]
      · rw [connEntryMatches_connKey so.name ti.name p q hso hti hp hq,
          Bool.and_eq_true]
        exact ⟨hinc1, hinc2⟩

/-! ## A small three-node chain used by several concrete checks -/

def demoNodeA : NodeData :=
  { id := "a", type := "Text-Input-Tool", position := (0, 0),
    data := ⟨"A", [], [⟨"output-1", "Text", "string", "output", none⟩]⟩ }

def demoNodeB : NodeData :=
  { id := "b", type := "Text-Agent", position := (0, 0),
    data := ⟨"B", [⟨"input-1", "Query", "none", "input", none⟩],
             [⟨"output-1", "Output", "string", "output", none⟩]⟩ }

def demoNodeC : NodeData :=
  { id := "c", type := "End", position := (0, 0),
    data := ⟨"C", [⟨"input-1", "End", "none", "input", none⟩], []⟩ }

def demoEdge1 : EdgeData := ⟨"e1", "a", "output-1", "b", "input-1"⟩

def demoEdge2 : EdgeData := ⟨"e2", "b", "output-1", "c", "input-1"⟩

/-- Node `b` sits between `a` and `c`: exactly two connected edges. -/
def demoState : GraphState := ⟨[demoNodeA, demoNodeB, demoNodeC], [demoEdge1, demoEdge2]⟩

/-! ## Claim theorems -/

/-- Claim C1: the matcher accepts a pattern only if the set of distinct node
kinds in the graph equals the pattern's required kind set exactly (membership
in the required list coincides with membership in the graph's kind list); and
the `text-agent` scenario graph extended with one unconnected `Calculator`
node matches no pattern at all, so execution takes the generic dispatch
branch. -/
theorem C1_exact_kind_set_and_fallback :
    (∀ (nodes : List NodeData) (edges : List EdgeData) (patternId : String)
       (pattern : WorkflowPattern),
       workflowPatterns.find? (fun p => p.id == patternId) = some pattern →
       checkWorkflowPattern nodes edges patternId = true →
       ∀ t, t ∈ pattern.requiredNodeTypes ↔ t ∈ nodes.map (fun n => n.type)) ∧
    detectWorkflowPattern scenarioNodesPlusCalc scenarioEdges = none ∧
    usesGenericDispatch scenarioNodesPlusCalc scenarioEdges = true := by
  refine ⟨?_, by decide, by decide⟩
  intro nodes edges patternId pattern hfind hcheck t
  unfold checkWorkflowPattern at hcheck
  simp only [hfind] at hcheck
  have hEq : jsSortStrings pattern.requiredNodeTypes =
      jsSortStrings (jsSetDedup (nodes.map (fun n => n.type))) := by
    by_cases h : jsSortStrings pattern.requiredNodeTypes =
        jsSortStrings (jsSetDedup (nodes.map (fun n => n.type)))
    · exact h
    · rw [if_neg h] at hcheck
      exact absurd hcheck (by simp)
  constructor
  · intro ht
    have h1 : t ∈ jsSortStrings pattern.requiredNodeTypes :=
      (mem_jsSortStrings t _).mpr ht
    rw [hEq] at h1
    exact (mem_jsSetDedup t _).mp ((mem_jsSortStrings t _).mp h1)
  · intro ht
    have h1 : t ∈ jsSortStrings (jsSetDedup (nodes.map (fun n => n.type))) :=
      (mem_jsSortStrings t _).mpr ((mem_jsSetDedup t _).mpr ht)
    rw [← hEq] at h1
    exact (mem_jsSortStrings t _).mp h1

/-- Witness for C1: the plain `text-agent` scenario graph passes the check,
and the membership equivalence is inhabited at the kind `End`. -/
theorem C1_exact_kind_set_witness :
    workflowPatterns.find? (fun p => p.id == "text-agent") =
      some textAgentCatalogPattern ∧
    checkWorkflowPattern scenarioNodes scenarioEdges "text-agent" = true ∧
    ("End" ∈ textAgentCatalogPattern.requiredNodeTypes ↔
      "End" ∈ scenarioNodes.map (fun n => n.type)) :=
  ⟨by decide, by decide,
   C1_exact_kind_set_and_fallback.1 scenarioNodes scenarioEdges "text-agent"
     textAgentCatalogPattern (by decide) (by decide) "End"⟩

/-- Claim C2, counterexample: the spec says a constraint is satisfied when the
actual name contains OR IS CONTAINED BY the expected name.  Output name `Te`
is contained by the expected `Text` (and `Query` matches `Query` exactly), the
edge resolves to live ports, so under the claim the `text-agent` constraint
`Text→Query` would be satisfied — but the code's one-directional
`includes` test rejects it, and with it the whole pattern. -/
theorem C2_counterexample_contained_by_rejected :
    specPortNamesCompatible "Te" "Text" = true ∧
    specPortNamesCompatible "Query" "Query" = true ∧
    edgeEntry ceNodes scenarioEdge1 =
      some (connKey "Text-Input-Tool" "Text-Agent", connKey "Te" "Query") ∧
    connectionCheckOne (buildConnections ceNodes scenarioEdges)
      ⟨"Text-Input-Tool→Text-Agent", connKey "Text" "Query"⟩ = false ∧
    checkWorkflowPattern ceNodes scenarioEdges "text-agent" = false :=
  ⟨by decide, by decide, by decide, by decide, by decide⟩

/-- Witness for the amended C2: on the unmodified scenario graph the
`Text→Query` constraint of `Text-Input-Tool→Text-Agent` is satisfied, and the
characterization's hypotheses hold. -/
theorem C2_connection_satisfaction_witness :
    arrowFree "Text" ∧ arrowFree "Query" ∧
    connectionCheckOne (buildConnections scenarioNodes scenarioEdges)
      ⟨"Text-Input-Tool→Text-Agent", connKey "Text" "Query"⟩ = true :=
  ⟨by decide, by decide,
   (C2_connection_satisfaction_contains_only scenarioNodes scenarioEdges
      "Text-Input-Tool→Text-Agent" "Text" "Query" (by decide) (by decide)
      (by decide)).mpr
     ⟨scenarioEdge1, by decide, textInputToolNode, textAgentNode,
      ⟨"output-1", "Text", "string", "output", none⟩,
      ⟨"input-3", "Query", "none", "input", none⟩,
      by decide, by decide, by decide, by decide, by decide, by decide, by decide⟩⟩

theorem edgesValid_cleanup (nodes : List NodeData) (edges : List EdgeData) :
    edgesValid ⟨nodes, cleanupEdges nodes edges⟩ = true := by
  unfold edgesValid cleanupEdges
  rw [List.all_eq_true]
  intro e he
  rw [List.mem_filter] at he
  exact he.2

theorem applyOp_edgesValid (s : GraphState) (op : GraphOp)
    (hv : edgesValid s = true) (hok : opOk s op = true) :
    edgesValid (applyOp s op) = true := by
  cases op with
  | addNode n => exact edgesValid_cleanup _ _
  | removeNode nid => exact edgesValid_cleanup _ _
  | addEdge e freshId =>
    unfold applyOp handleAddEdge
    cases hex : s.edges.any (sameTupleAs e) with
    | true =>
      simp only [hex, if_true]
      exact hv
    | false =>
      simp only [hex, Bool.false_eq_true, if_false]
      unfold edgesValid at hv ⊢
      rw [List.all_eq_true] at hv ⊢
      intro x hx
      rw [List.mem_append] at hx
      cases hx with
      | inl hx => exact hv x hx
      | inr hx =>
        rw [List.mem_singleton] at hx
        subst hx
        unfold opOk at hok
        rw [Bool.and_eq_true] at hok
        rw [Bool.and_eq_true]
        exact hok
  | removeEdge eid =>
    unfold applyOp handleRemoveEdge
    unfold edgesValid at hv ⊢
    rw [List.all_eq_true] at hv ⊢
    intro x hx
    rw [List.mem_filter] at hx
    exact hv x hx.1

theorem applyOps_edgesValid : ∀ (ops : List GraphOp) (s : GraphState),
    edgesValid s = true → opsOk s ops = true → edgesValid (applyOps s ops) = true := by
  intro ops
  induction ops with
  | nil => intro s hv _; exact hv
  | cons op rest ih =>
    intro s hv hok
    unfold opsOk at hok
    rw [Bool.and_eq_true] at hok
    unfold applyOps
    rw [List.foldl_cons]
    exact ih (applyOp s op) (applyOp_edgesValid s op hv hok.1) hok.2

theorem opsOk_take : ∀ (ops : List GraphOp) (s : GraphState) (k : ℕ),
    opsOk s ops = true → opsOk s (ops.take k) = true := by
  intro ops
  induction ops with
  | nil => intro s k _; simp [opsOk]
  | cons op rest ih =>
    intro s k hok
    cases k with
    | zero => simp [opsOk]
    | succ k =>
      unfold opsOk at hok
      rw [Bool.and_eq_true] at hok
      rw [List.take_succ_cons]
      unfold opsOk
      rw [Bool.and_eq_true]
      exact ⟨hok.1, ih (applyOp s op) k hok.2⟩

/-- Claim C3: starting from a state with no dangling edge, after every prefix
of any sequence of graph operations (with edge proposals coming, as in the UI,
from live ports) the edge set references only live node ids — each node
change re-establishes the invariant through the Playground cleanup effect
folded into `applyOp`. -/
theorem C3_edges_always_valid (s : GraphState) (ops : List GraphOp)
    (hv : edgesValid s = true) (hok : opsOk s ops = true) :
    ∀ k, edgesValid (applyOps s (ops.take k)) = true :=
  fun k => applyOps_edgesValid (ops.take k) s hv (opsOk_take ops s k hok)

def demoOps : List GraphOp :=
  [.addNode demoNodeA, .addNode demoNodeB, .addNode demoNodeC,
   .addEdge ⟨"temp-id", "a", "output-1", "b", "input-1"⟩ "e1",
   .addEdge ⟨"temp-id", "b", "output-1", "c", "input-1"⟩ "e2",
   .removeNode "b", .removeEdge "e9"]

/-- Witness for C3 on a concrete operation sequence that adds three nodes,
wires them, deletes the middle node and runs one more removal. -/
theorem C3_edges_always_valid_witness :
    edgesValid ⟨[], []⟩ = true ∧ opsOk ⟨[], []⟩ demoOps = true ∧
    edgesValid (applyOps ⟨[], []⟩ (demoOps.take 6)) = true :=
  ⟨by decide, by decide,
   C3_edges_always_valid ⟨[], []⟩ demoOps (by decide) (by decide) 6⟩

/-- Claim C4: `handleAddEdge` deduplicates on the 4-tuple — submitting a
duplicate is a silent no-op, the operation is idempotent, and two submissions
of one tuple leave exactly one matching edge. -/
theorem C4_addEdge_idempotent (edges : List EdgeData) (e : EdgeData) (id1 id2 : String) :
    (edges.any (sameTupleAs e) = true → handleAddEdge edges e id1 = edges) ∧
    handleAddEdge (handleAddEdge edges e id1) e id2 = handleAddEdge edges e id1 ∧
    (edges.any (sameTupleAs e) = false →
      (handleAddEdge (handleAddEdge edges e id1) e id2).countP (sameTupleAs e) = 1) := by
  cases hex : edges.any (sameTupleAs e) with
  | true =>
    have h1 : handleAddEdge edges e id1 = edges := by
      unfold handleAddEdge; simp [hex]
    have h2 : handleAddEdge edges e id2 = edges := by
      unfold handleAddEdge; simp [hex]
    refine ⟨fun _ => h1, by rw [h1, h2], fun hc => absurd hc (by simp)⟩
  | false =>
    have h1 : handleAddEdge edges e id1 = edges ++ [{ e with id := id1 }] := by
      unfold handleAddEdge; simp [hex]
    have hnew : sameTupleAs e { e with id := id1 } = true := by
      simp [sameTupleAs]
    have h2 : (edges ++ [{ e with id := id1 }]).any (sameTupleAs e) = true := by
      rw [List.any_append]
      simp [hnew]
    have h3 : handleAddEdge (edges ++ [{ e with id := id1 }]) e id2 =
        edges ++ [{ e with id := id1 }] := by
      unfold handleAddEdge; simp [h2]
    refine ⟨fun hc => absurd hc (by simp), by rw [h1, h3], fun _ => ?_⟩
    rw [h1, h3, List.countP_append]
    have hz : edges.countP (sameTupleAs e) = 0 := by
      rw [List.countP_eq_zero]
      intro a ha
      rw [List.any_eq_false] at hex
      exact hex a ha
    rw [hz]
    simp [List.countP_cons, hnew]

/-- Witness for C4: an empty edge list accumulates exactly one edge from two
identical submissions, and a pre-existing duplicate makes the submission a
no-op. -/
theorem C4_addEdge_idempotent_witness :
    (([] : List EdgeData).any (sameTupleAs ⟨"temp-id", "a", "o1", "b", "i1"⟩) = false ∧
     (handleAddEdge (handleAddEdge [] ⟨"temp-id", "a", "o1", "b", "i1"⟩ "e1")
         ⟨"temp-id", "a", "o1", "b", "i1"⟩ "e2").countP
       (sameTupleAs ⟨"temp-id", "a", "o1", "b", "i1"⟩) = 1) ∧
    ([⟨"e0", "a", "o1", "b", "i1"⟩] : List EdgeData).any
      (sameTupleAs ⟨"temp-id", "a", "o1", "b", "i1"⟩) = true ∧
    handleAddEdge [⟨"e0", "a", "o1", "b", "i1"⟩] ⟨"temp-id", "a", "o1", "b", "i1"⟩ "e9" =
      [⟨"e0", "a", "o1", "b", "i1"⟩] :=
  ⟨⟨by decide,
    (C4_addEdge_idempotent [] ⟨"temp-id", "a", "o1", "b", "i1"⟩ "e1" "e2").2.2 (by decide)⟩,
   by decide,
   (C4_addEdge_idempotent [⟨"e0", "a", "o1", "b", "i1"⟩]
      ⟨"temp-id", "a", "o1", "b", "i1"⟩ "e9" "x").1 (by decide)⟩

/-- Claim C5 (code bug): deleting node `b`, which has exactly the two
connected edges `e1` and `e2`, commits an edge list in which only `e2` is
gone — each `onRemoveEdge` filters the stale render-time list and the last
queued update wins — so the count visible right after the click is
`previousCount - 1`, with the dangling `e1` still present (`edgesValid` is
false); only the separately-scheduled cleanup effect then empties it. -/
theorem C5_delete_two_edges_not_atomic :
    (deleteNodeClick demoState "b").edges = [demoEdge1] ∧
    (deleteNodeClick demoState "b").edges.length = demoState.edges.length - 1 ∧
    edgesValid (deleteNodeClick demoState "b") = false ∧
    cleanupEdges (deleteNodeClick demoState "b").nodes
      (deleteNodeClick demoState "b").edges = [] :=
  ⟨by decide, by decide, by decide, by decide⟩

/-- Claim C6: for any canvas point and any in-range viewport, converting to
screen space and back is the identity (exact over ℚ). -/
theorem C6_coordinate_round_trip (p : ℚ × ℚ) (scale : ℚ) (offset : ℚ × ℚ)
    (h1 : MIN_ZOOM ≤ scale) (h2 : scale ≤ MAX_ZOOM) :
    toCanvas (toScreen p scale offset) scale offset = p := by
  have hs : scale ≠ 0 := by
    have hpos : (0 : ℚ) < scale := lt_of_lt_of_le (by norm_num [MIN_ZOOM]) h1
    exact hpos.ne'
  unfold toCanvas toScreen
  refine Prod.ext ?_ ?_ <;> (dsimp only; field_simp)

/-- Witness for C6 at scale 1, offset (3,4), point (5,6). -/
theorem C6_coordinate_round_trip_witness :
    MIN_ZOOM ≤ (1 : ℚ) ∧ (1 : ℚ) ≤ MAX_ZOOM ∧
    toCanvas (toScreen (5, 6) 1 (3, 4)) 1 (3, 4) = ((5 : ℚ), (6 : ℚ)) :=
  ⟨by norm_num [MIN_ZOOM], by norm_num [MAX_ZOOM],
   C6_coordinate_round_trip (5, 6) 1 (3, 4) (by norm_num [MIN_ZOOM])
     (by norm_num [MAX_ZOOM])⟩

theorem handleZoomScale_bounds (s d : ℚ) :
    MIN_ZOOM ≤ handleZoomScale s d ∧ handleZoomScale s d ≤ MAX_ZOOM := by
  unfold handleZoomScale
  exact ⟨le_min (le_max_right _ _) (by norm_num [MIN_ZOOM, MAX_ZOOM]),
         min_le_right _ _⟩

/-- Claim C7: whatever the starting scale and the delta, the zoom handler's
new scale is clamped into [MIN_ZOOM, MAX_ZOOM] and in particular never 0. -/
theorem C7_zoom_scale_clamped (scale delta : ℚ) (offset : ℚ × ℚ) :
    MIN_ZOOM ≤ (handleZoom scale offset delta).1 ∧
    (handleZoom scale offset delta).1 ≤ MAX_ZOOM ∧
    (handleZoom scale offset delta).1 ≠ 0 := by
  have hb := handleZoomScale_bounds scale delta
  have hfst : (handleZoom scale offset delta).1 = handleZoomScale scale delta := rfl
  rw [hfst]
  exact ⟨hb.1, hb.2, (lt_of_lt_of_le (by norm_num [MIN_ZOOM]) hb.1).ne'⟩

/-- Claim C8, counterexample: zooming in by 0.1 from scale 1, offset (0,0),
the canvas point under the screen pivot (0,0) does NOT stay under the pivot —
the offset correction ignores the pivot entirely. -/
theorem C8_counterexample_pivot_moves :
    toScreen (toCanvas (0, 0) 1 (0, 0)) (handleZoom 1 (0, 0) (1/10)).1
      (handleZoom 1 (0, 0) (1/10)).2 ≠ ((0 : ℚ), (0 : ℚ)) := by
  have hsc : (handleZoom 1 ((0 : ℚ), (0 : ℚ)) (1/10)).1 = 11/10 := by
    norm_num [handleZoom, handleZoomScale, MIN_ZOOM, MAX_ZOOM, min_def, max_def]
  have hof : (handleZoom 1 ((0 : ℚ), (0 : ℚ)) (1/10)).2 = (-1/11, -1/11) := by
    norm_num [handleZoom, handleZoomScale, MIN_ZOOM, MAX_ZOOM, min_def, max_def,
      Prod.ext_iff]
  rw [hsc, hof]
  intro h
  rw [Prod.ext_iff] at h
  norm_num [toScreen, toCanvas] at h

/-- Claim C8 (amended): the zoom offset correction is pivot-independent; the
screen point it actually holds fixed is `(scale, scale)` — mapping the canvas
point under that screen point through the post-zoom transform returns it to
the same screen position. -/
theorem C8_zoom_fixes_scale_point (scale delta : ℚ) (offset : ℚ × ℚ)
    (h : MIN_ZOOM ≤ scale) :
    toScreen (toCanvas (scale, scale) scale offset)
      (handleZoom scale offset delta).1 (handleZoom scale offset delta).2 =
      (scale, scale) := by
  have hb := handleZoomScale_bounds scale delta
  have hns : handleZoomScale scale delta ≠ 0 :=
    (lt_of_lt_of_le (by norm_num [MIN_ZOOM]) hb.1).ne'
  have hs : scale ≠ 0 := (lt_of_lt_of_le (by norm_num [MIN_ZOOM]) h).ne'
  unfold handleZoom toCanvas toScreen
  refine Prod.ext ?_ ?_ <;> (dsimp only; field_simp; ring)

/-- Witness for the amended C8 at scale 1, delta 0.1, offset (2,3). -/
theorem C8_zoom_fixes_scale_point_witness :
    MIN_ZOOM ≤ (1 : ℚ) ∧
    toScreen (toCanvas (1, 1) 1 (2, 3)) (handleZoom 1 (2, 3) (1/10)).1
      (handleZoom 1 (2, 3) (1/10)).2 = ((1 : ℚ), (1 : ℚ)) :=
  ⟨by norm_num [MIN_ZOOM],
   C8_zoom_fixes_scale_point 1 (1/10) (2, 3) (by norm_num [MIN_ZOOM])⟩

theorem snapFold_all_far (m : ℚ × ℚ) (r2 : ℚ) :
    ∀ (fps : List (String × (ℚ × ℚ))),
    (∀ fp ∈ fps, r2 < (fp.2.1 - m.1) ^ 2 + (fp.2.2 - m.2) ^ 2) →
    fps.foldl (snapStep r2 m) (none, none) = (none, none) := by
  intro fps
  induction fps with
  | nil => intro _; rfl
  | cons fp rest ih =>
    intro h
    rw [List.foldl_cons]
    have hfar := h fp (List.mem_cons_self fp rest)
    have hstep : snapStep r2 m (none, none) fp = (none, none) := by
      unfold snapStep
      simp only
      rw [if_neg (not_le.mpr hfar)]
    rw [hstep]
    exact ih (fun x hx => h x (List.mem_cons_of_mem fp hx))

/-- Claim C9: if every port anchor is strictly farther (in canvas space) from
the release point than the snap radius `40 / scale`, the snap search finds no
candidate and the release leaves the edge set unchanged, clearing only the
drag state. -/
theorem C9_release_beyond_snap_radius_no_edge
    (fps : List (String × (ℚ × ℚ))) (m : ℚ × ℚ) (scale : ℚ)
    (edges : List EdgeData) (domFields : List FieldInfo)
    (start : ConnectionState) (freshId : String)
    (h : ∀ fp ∈ fps, (40 / scale) ^ 2 < (fp.2.1 - m.1) ^ 2 + (fp.2.2 - m.2) ^ 2) :
    findSnapCandidate fps m scale = none ∧
    connectionMouseUp edges domFields (findSnapCandidate fps m scale) start freshId =
      (edges, none) := by
  have hn : findSnapCandidate fps m scale = none := by
    unfold findSnapCandidate
    rw [snapFold_all_far m ((40 / scale) ^ 2) fps h]
  exact ⟨hn, by rw [hn]; rfl⟩

/-- Witness for C9: a single anchor 100 canvas units away at scale 1 (snap
radius 40). -/
theorem C9_release_beyond_snap_radius_witness :
    ((40 : ℚ) / 1) ^ 2 < (((100 : ℚ), (0 : ℚ)).1 - 0) ^ 2 + (((100 : ℚ), (0 : ℚ)).2 - 0) ^ 2 ∧
    connectionMouseUp [] [] (findSnapCandidate [("f1", (100, 0))] (0, 0) 1)
      ⟨"n1", "p1", "output"⟩ "e1" = ([], none) :=
  ⟨by norm_num,
   (C9_release_beyond_snap_radius_no_edge [("f1", (100, 0))] (0, 0) 1 [] []
      ⟨"n1", "p1", "output"⟩ "e1"
      (by
        intro fp hfp
        rw [List.mem_singleton] at hfp
        subst hfp
        norm_num)).2⟩

/-- Claim C10, counterexample: a pointer-down on an INPUT port anchor while no
drag is in progress does not enter the connection-drag state — the handler's
guard requires an output origin (or an input while an output drag is already
active), so the state is left untouched. -/
theorem C10_counterexample_input_ignored :
    handleFieldMouseDown ⟨none, (0, 0)⟩ "node-1" "input-1" "input" (3, 4) (0, 0) 1 (0, 0) =
      ⟨none, (0, 0)⟩ := by decide

/-- Claim C10 (amended): with no drag in progress, a pointer-down on an OUTPUT
port anchor enters the connection-drag state, capturing the origin port id and
direction and converting the pointer to canvas space for the preview, while a
pointer-down on an input anchor leaves the state unchanged. -/
theorem C10_output_enters_drag (nodeId fieldId : String) (client rectTL : ℚ × ℚ)
    (scale : ℚ) (offset : ℚ × ℚ) (mp : ℚ × ℚ) :
    handleFieldMouseDown ⟨none, mp⟩ nodeId fieldId "output" client rectTL scale offset =
      ⟨some ⟨nodeId, fieldId, "output"⟩,
       toCanvas (client.1 - rectTL.1, client.2 - rectTL.2) scale offset⟩ ∧
    handleFieldMouseDown ⟨none, mp⟩ nodeId fieldId "input" client rectTL scale offset =
      ⟨none, mp⟩ :=
  ⟨rfl, rfl⟩
